import Mathlib

/-!
# Change-capture-and-propagation pipeline: a shallow embedding

This file embeds the change-data-capture producer (`TiDBCDCService`, file
`tidb-cdc.js`) and the bus consumer (`KafkaConsumerService`, file
`backend/kafka-consumer.js`) of the repository.  Pure classification
functions are translated directly; the stateful poller is translated as an
explicit state-passing function over the in-memory image of the
`cdc_change_log` table and the cursor, with the outcome of each broker
publish supplied by an oracle `publishOk` (the broker is external I/O).
Observable bus traffic is returned as a list of messages: a publish whose
oracle says "failed" contributes no message, exactly as a rejected
`producer.send` delivers nothing.
-/

namespace SRE

/-- Value of a JavaScript optional-chained property access `obj?.password`:
`undef` when the object is null/undefined or lacks the field, `null` when the
field holds JSON null, `str s` when it holds a string. -/
inductive JsVal where
  | undef
  | null
  | str (s : String)
deriving DecidableEq

/-- Row snapshot carried in the `old_data` / `new_data` JSON columns of
`cdc_change_log`.  The pipeline reads exactly one field of these snapshots —
`password` — so the snapshot is embedded by that field. -/
structure RowData where
  password : JsVal
deriving DecidableEq

/-- JavaScript `d?.password`: `undefined` when `d` itself is null/undefined. -/
def passwordOf : Option RowData → JsVal
  | Option.none => JsVal.undef
  | Option.some r => r.password

/-- One row of the `cdc_change_log` table (producer side).  `change_timestamp`
is dropped (real time, read by no claim); the remaining columns are kept. -/
structure ChangeRecord where
  id : Nat
  table_name : String
  operation_type : String
  record_id : String
  old_data : Option RowData
  new_data : Option RowData
  user_id : Option Nat
  processed : Bool
deriving DecidableEq

namespace TiDBCDCService

/-- Producer-side `isCriticalChange(change)`: a `users` DELETE, or a `users`
UPDATE whose `old_data?.password !== new_data?.password`. -/
def isCriticalChange (change : ChangeRecord) : Bool :=
  if change.table_name == "users" && change.operation_type == "DELETE" then
    true
  else if change.table_name == "users" && change.operation_type == "UPDATE" then
    if passwordOf change.old_data != passwordOf change.new_data then true else false
  else
    false

/-- Producer-side `getSecurityImplications(change)`. -/
def getSecurityImplications (change : ChangeRecord) : String :=
  if change.table_name == "users" && change.operation_type == "DELETE" then
    "USER_ACCOUNT_DELETED"
  else if change.table_name == "users" && change.operation_type == "UPDATE" then
    "USER_DATA_MODIFIED"
  else
    "UNKNOWN"

/-- The `changeLogEntry` object built by `processChange`, restricted to the
fields later code reads.  The three escalation fields are `Option`s because the
ordinary envelope does not carry them; `processCriticalChange` adds them by
object spread. -/
structure ChangeLogEntry where
  category : String
  operation : String
  table : String
  recordId : String
  userId : Option Nat
  oldData : Option RowData
  newData : Option RowData
  alertLevel : Option String
  requiresAttention : Option Bool
  securityImplications : Option String
deriving DecidableEq

/-- The ordinary envelope `processChange` builds from a change record. -/
def mkChangeLogEntry (change : ChangeRecord) : ChangeLogEntry :=
  { category := "DATABASE_CHANGE"
    operation := change.operation_type
    table := change.table_name
    recordId := change.record_id
    userId := change.user_id
    oldData := change.old_data
    newData := change.new_data
    alertLevel := Option.none
    requiresAttention := Option.none
    securityImplications := Option.none }

/-- One message handed to `producer.send`. -/
structure KafkaMessage where
  topic : String
  key : String
  value : ChangeLogEntry
deriving DecidableEq

/-- `sendChangeToKafka(changeLogEntry)`: publish the envelope to topic
`database-events` with key `` `${table}_${recordId}` ``.  A send failure is
caught inside this function and only logged (`CDC_KAFKA_SEND_ERROR`), so a
failed publish delivers nothing and signals nothing to the caller. -/
def sendChangeToKafka (publishOk : Bool) (changeLogEntry : ChangeLogEntry) :
    List KafkaMessage :=
  if publishOk then
    [{ topic := "database-events"
       key := changeLogEntry.table ++ "_" ++ changeLogEntry.recordId
       value := changeLogEntry }]
  else
    []

/-- The `criticalLogEntry` spread built by `processCriticalChange`. -/
def criticalLogEntry (change : ChangeRecord) (changeLogEntry : ChangeLogEntry) :
    ChangeLogEntry :=
  { changeLogEntry with
    category := "CRITICAL_DATABASE_CHANGE"
    alertLevel := Option.some "HIGH"
    requiresAttention := Option.some true
    securityImplications := Option.some (getSecurityImplications change) }

/-- `processCriticalChange(change, changeLogEntry)`: publish the augmented
envelope to topic `critical-database-events` with key
`` `CRITICAL_${table_name}_${record_id}` ``. -/
def processCriticalChange (publishOk : Bool) (change : ChangeRecord)
    (changeLogEntry : ChangeLogEntry) : List KafkaMessage :=
  if publishOk then
    [{ topic := "critical-database-events"
       key := "CRITICAL_" ++ change.table_name ++ "_" ++ change.record_id
       value := criticalLogEntry change changeLogEntry }]
  else
    []

/-- `processChange(change)`: build the envelope, publish it, and when the
change is critical additionally publish the augmented envelope.  Any error
raised inside is caught and logged (`CDC_CHANGE_PROCESSING_ERROR`), so this
function never raises to the poller. -/
def processChange (publishOk : Bool) (change : ChangeRecord) : List KafkaMessage :=
  let changeLogEntry := mkChangeLogEntry change
  sendChangeToKafka publishOk changeLogEntry ++
    (if isCriticalChange change then
      processCriticalChange publishOk change changeLogEntry
    else
      [])

/-- Poller state: the in-memory image of `cdc_change_log` (a multiset of rows)
and the cursor `this.lastProcessedId.cdc_change_log`. -/
structure CDCState where
  log : List ChangeRecord
  lastProcessedId : Nat
deriving DecidableEq

/-- Insertion step for the id-ascending sort below. -/
def insertById (c : ChangeRecord) : List ChangeRecord → List ChangeRecord
  | [] => [c]
  | d :: ds => if c.id ≤ d.id then c :: d :: ds else d :: insertById c ds

/-- `ORDER BY id ASC` of the fetch query (insertion sort on `id`). -/
def sortById : List ChangeRecord → List ChangeRecord
  | [] => []
  | c :: cs => insertById c (sortById cs)

/-- The fetch query of `pollForChanges`:
`SELECT * FROM cdc_change_log WHERE id > ? AND processed = FALSE
 ORDER BY id ASC LIMIT 100` with `?` the cursor. -/
def fetchBatch (st : CDCState) : List ChangeRecord :=
  (sortById (st.log.filter fun c =>
    decide (st.lastProcessedId < c.id) && !c.processed)).take 100

/-- `Math.max(...changes.map(c => c.id))` over the batch (Nat, so `0` is the
identity of `max` and the batch ids dominate it). -/
def maxIdOf (changes : List ChangeRecord) : Nat :=
  changes.foldl (fun m c => max m c.id) 0

/-- One `pollForChanges` cycle.  Fetch the batch; if empty, do nothing.
Otherwise run `processChange` on each record in order (collecting whatever
reached the bus), assign the cursor to each record's id in turn (the loop body
`this.lastProcessedId.cdc_change_log = change.id`), and finally execute
`UPDATE cdc_change_log SET processed = TRUE WHERE id <= maxId`.  Note that
neither the cursor assignment nor the UPDATE consults the publish outcome. -/
def pollForChanges (publishOk : Nat → Bool) (st : CDCState) :
    CDCState × List KafkaMessage :=
  let changes := fetchBatch st
  if changes.isEmpty then
    (st, [])
  else
    let messages := changes.flatMap fun c => processChange (publishOk c.id) c
    let cursor := changes.foldl (fun _ c => c.id) st.lastProcessedId
    let maxId := maxIdOf changes
    let log := st.log.map fun c =>
      if c.id ≤ maxId then { c with processed := true } else c
    ({ log := log, lastProcessedId := cursor }, messages)

end TiDBCDCService

namespace KafkaConsumerService

/-- The parsed payload of a `database-events` message as the consumer reads
it: the fields of the producer's envelope that `classifyChange` and
`isCriticalChange` access. -/
structure DatabaseEventData where
  operation : String
  table : String
  recordId : String
  oldData : Option RowData
  newData : Option RowData
deriving DecidableEq

/-- Projection of the producer's envelope to what the consumer-side
classifiers read (JSON round-trip preserves these fields verbatim). -/
def eventDataOf (e : TiDBCDCService.ChangeLogEntry) : DatabaseEventData :=
  { operation := e.operation
    table := e.table
    recordId := e.recordId
    oldData := e.oldData
    newData := e.newData }

/-- Consumer-side `classifyChange(eventData)`. -/
def classifyChange (eventData : DatabaseEventData) : String :=
  if eventData.table == "users" then "USER_DATA_CHANGE"
  else if eventData.table == "user_tokens" then "AUTH_TOKEN_CHANGE"
  else "GENERAL_DATA_CHANGE"

/-- Consumer-side `isCriticalChange(eventData)`. -/
def isCriticalChange (eventData : DatabaseEventData) : Bool :=
  eventData.table == "users" &&
    (eventData.operation == "DELETE" ||
      (eventData.operation == "UPDATE" &&
        passwordOf eventData.newData != passwordOf eventData.oldData))

/-- The `loginData` object passed to `assessLoginRisk` (only `ipAddress` is
read). -/
structure LoginData where
  ipAddress : String
deriving DecidableEq

/-- `assessLoginRisk(loginData)`. -/
def assessLoginRisk (loginData : LoginData) : String :=
  if loginData.ipAddress == "127.0.0.1" then "LOW" else "MEDIUM"

/-- Shape of `message.value` as `processMessage` sees it: absent
(`message.value` null, so no parse is attempted and the handler receives
null), a payload on which `JSON.parse` raises, or a payload that parses.  The
parsed document itself is irrelevant to dispatch, so it is not carried. -/
inductive MessageValue where
  | absent
  | invalidJson
  | valid
deriving DecidableEq

/-- Observable outcome of `processMessage` for one message: the catch block
logged `MESSAGE_PROCESSING_ERROR` (and did not rethrow, so the message is not
redelivered), the default branch logged the `UNKNOWN_TOPIC_MESSAGE` warning,
or the named per-topic handler was invoked. -/
inductive ProcessOutcome where
  | errorLogged
  | unknownTopicWarned
  | handled (handler : String)
deriving DecidableEq

/-- `processMessage(topic, partition, message)`: `JSON.parse` the value (a
raised parse error lands in the catch block), then dispatch on the topic —
the JavaScript `switch` compares the topic against each case label in turn;
an unrecognized topic is logged as a warning and no handler runs. -/
def processMessage (topic : String) (value : MessageValue) : ProcessOutcome :=
  match value with
  | MessageValue.invalidJson => ProcessOutcome.errorLogged
  | _ =>
    if topic == "user-events" then ProcessOutcome.handled "processUserEvent"
    else if topic == "database-events" then ProcessOutcome.handled "processDatabaseEvent"
    else if topic == "system-logs" then ProcessOutcome.handled "processSystemLog"
    else ProcessOutcome.unknownTopicWarned

end KafkaConsumerService

end SRE

/-! ## Test fixtures: concrete records and poller states -/

namespace SRE

open TiDBCDCService

/-- A `users` DELETE change record (a critical change by definition). -/
def criticalUserDelete : ChangeRecord :=
  { id := 6, table_name := "users", operation_type := "DELETE", record_id := "42",
    old_data := Option.some ⟨JsVal.str "secret"⟩, new_data := Option.none,
    user_id := Option.some 42, processed := false }

/-- An unprocessed `user_tokens` INSERT change record. -/
def tokenInsertRecord : ChangeRecord :=
  { id := 1, table_name := "user_tokens", operation_type := "INSERT", record_id := "7",
    old_data := Option.none, new_data := Option.none,
    user_id := Option.some 7, processed := false }

/-- Poller state holding exactly the one unprocessed token record, cursor 0. -/
def stOneToken : CDCState := { log := [tokenInsertRecord], lastProcessedId := 0 }

/-- An unprocessed `users` INSERT change record (not critical). -/
def userInsertRecord : ChangeRecord :=
  { id := 2, table_name := "users", operation_type := "INSERT", record_id := "42",
    old_data := Option.none, new_data := Option.some ⟨JsVal.str "h"⟩,
    user_id := Option.some 42, processed := false }

/-- Poller state holding exactly the one unprocessed user record, cursor 0. -/
def stOneUser : CDCState := { log := [userInsertRecord], lastProcessedId := 0 }

/-- The user record as it stands in the log after the poll cycle. -/
def userMarkedProcessed : ChangeRecord := { userInsertRecord with processed := true }

/-! ## Claims -/

/-- C1, counterexample: with a single unprocessed record (id 1) and every
publish failing, a poll cycle delivers nothing to the bus, yet the cursor
advances to 1 and the record is marked `processed = true` — the record is not
left for retry, contrary to the claim. -/
theorem C1_publish_failure_still_marks_processed_cx :
    (pollForChanges (fun _ => false) stOneToken).2 = [] ∧
    (pollForChanges (fun _ => false) stOneToken).1.lastProcessedId = 1 ∧
    ((pollForChanges (fun _ => false) stOneToken).1.log.map fun c => c.processed) =
      [true] := by decide

/-- C1 (amended): the poller's resulting state — the change log's `processed`
flags and the cursor — is identical whatever the publish outcomes: a publish
failure is only logged, the record is still marked `processed = true`, the
cursor still advances past it, and the record is never re-read. -/
theorem C1_poller_state_independent_of_publish_outcome
    (pub1 pub2 : Nat → Bool) (st : CDCState) :
    (pollForChanges pub1 st).1 = (pollForChanges pub2 st).1 := by
  unfold pollForChanges
  by_cases h : (fetchBatch st).isEmpty <;> simp [h]

/-- C2, counterexample: with every publish failing, the poll cycle hands
nothing to the bus yet marks the record `processed = true` — a record is
marked processed without having been published, contrary to the claim. -/
theorem C2_processed_without_publish_cx :
    ((pollForChanges (fun _ => false) stOneUser).1.log.map fun c => c.processed) =
      [true] ∧
    (pollForChanges (fun _ => false) stOneUser).2 = [] := by decide

/-- C2 (amended): across a poll cycle the `processed` flag is monotone — every
record of the resulting log corresponds by id to a record of the starting log,
and a record already marked processed is never reset to false; but the flag is
set regardless of whether the record's event was handed to the bus. -/
theorem C2_processed_flag_monotone (pub : Nat → Bool) (st : CDCState)
    (c' : ChangeRecord) (hmem : c' ∈ (pollForChanges pub st).1.log) :
    ∃ c, c ∈ st.log ∧ c'.id = c.id ∧ (c.processed = true → c'.processed = true) := by
  unfold pollForChanges at hmem
  by_cases h : (fetchBatch st).isEmpty
  · simp [h] at hmem
    exact ⟨c', hmem, rfl, fun hp => hp⟩
  · simp [h, List.mem_map] at hmem
    obtain ⟨c, hc, hfc⟩ := hmem
    by_cases hle : c.id ≤ maxIdOf (fetchBatch st)
    · refine ⟨c, hc, ?_, ?_⟩ <;> simp [← hfc, hle]
    · refine ⟨c, hc, ?_, ?_⟩ <;> simp [← hfc, hle]

/-- C2, witness: the monotonicity theorem applied to the concrete one-record
state with all publishes failing, at the record the cycle produces. -/
theorem C2_processed_flag_monotone_witness :
    ∃ c, c ∈ stOneUser.log ∧ userMarkedProcessed.id = c.id ∧
      (c.processed = true → userMarkedProcessed.processed = true) :=
  C2_processed_flag_monotone (fun _ => false) stOneUser userMarkedProcessed (by decide)

/-- C3: the producer's criticality predicate holds exactly for a `users`
DELETE, or a `users` UPDATE whose password field differs between the before
and after snapshots; every other case — including a `users` UPDATE with an
unchanged password and any operation on a non-`users` table — is not
critical. -/
theorem C3_isCriticalChange_boundary (change : ChangeRecord) :
    TiDBCDCService.isCriticalChange change = true ↔
      (change.table_name = "users" ∧
        (change.operation_type = "DELETE" ∨
          (change.operation_type = "UPDATE" ∧
            passwordOf change.old_data ≠ passwordOf change.new_data))) := by
  unfold TiDBCDCService.isCriticalChange
  by_cases h1 : change.table_name = "users" <;>
  by_cases h2 : change.operation_type = "DELETE" <;>
  by_cases h3 : change.operation_type = "UPDATE" <;>
  by_cases h4 : passwordOf change.old_data = passwordOf change.new_data <;>
    simp_all

/-- C4: for every change record, the consumer-side criticality predicate,
evaluated on the envelope the producer builds for that record, returns the
same boolean as the producer-side predicate — the classification is recomputed
identically on both sides. -/
theorem C4_producer_consumer_classifier_agree (change : ChangeRecord) :
    KafkaConsumerService.isCriticalChange
        (KafkaConsumerService.eventDataOf (TiDBCDCService.mkChangeLogEntry change)) =
      TiDBCDCService.isCriticalChange change := by
  unfold KafkaConsumerService.isCriticalChange KafkaConsumerService.eventDataOf
    TiDBCDCService.mkChangeLogEntry TiDBCDCService.isCriticalChange
  by_cases h1 : change.table_name = "users" <;>
  by_cases h2 : change.operation_type = "DELETE" <;>
  by_cases h3 : change.operation_type = "UPDATE" <;>
  by_cases h4 : passwordOf change.old_data = passwordOf change.new_data <;>
    simp_all [bne_iff_ne, Ne.symm]

/-- C5: when every publish succeeds, a critical change produces exactly two
deliveries — the ordinary envelope on `database-events` and additionally the
augmented envelope on `critical-database-events` carrying
`alertLevel = HIGH`, `requiresAttention = true` and the security-implication
tag — while a non-critical change produces only the primary delivery. -/
theorem C5_critical_dual_delivery (change : ChangeRecord) :
    (TiDBCDCService.isCriticalChange change = true →
      (processChange true change).map
          (fun m => (m.topic, m.value.category, m.value.alertLevel,
            m.value.requiresAttention, m.value.securityImplications)) =
        [("database-events", "DATABASE_CHANGE", Option.none, Option.none, Option.none),
         ("critical-database-events", "CRITICAL_DATABASE_CHANGE", Option.some "HIGH",
           Option.some true,
           Option.some (TiDBCDCService.getSecurityImplications change))]) ∧
    (TiDBCDCService.isCriticalChange change = false →
      (processChange true change).map (fun m => (m.topic, m.value)) =
        [("database-events", TiDBCDCService.mkChangeLogEntry change)]) := by
  constructor <;> intro hcrit <;>
    simp [TiDBCDCService.processChange, TiDBCDCService.sendChangeToKafka,
      TiDBCDCService.processCriticalChange, TiDBCDCService.criticalLogEntry,
      TiDBCDCService.mkChangeLogEntry, hcrit]

/-- C6, counterexample: for the concrete `users` DELETE of record "42", the
primary delivery's key is `users_42` and the escalated delivery's key is
`CRITICAL_users_42` — the key is not `users:42`, and the two deliveries of the
same change use different keys, contrary to the claim. -/
theorem C6_partition_key_cx :
    ((processChange true criticalUserDelete).map fun m => m.key) =
      ["users_42", "CRITICAL_users_42"] ∧
    ("users_42" : String) ≠ "users:42" ∧
    ("CRITICAL_users_42" : String) ≠ "users_42" := by decide

/-- C6 (amended): the primary delivery's key is `table_recordId` (underscore
separator, not `table:recordId`), the escalated delivery's key is
`CRITICAL_table_recordId`, and those two keys are never equal, so the two
deliveries of one change record land on different keys. -/
theorem C6_partition_keys_underscore_and_distinct (change : ChangeRecord) :
    ((processChange true change).map fun m => m.key) =
      (if TiDBCDCService.isCriticalChange change then
        [change.table_name ++ "_" ++ change.record_id,
         "CRITICAL_" ++ change.table_name ++ "_" ++ change.record_id]
      else
        [change.table_name ++ "_" ++ change.record_id]) ∧
    change.table_name ++ "_" ++ change.record_id ≠
      "CRITICAL_" ++ change.table_name ++ "_" ++ change.record_id := by
  constructor
  · by_cases hcrit : TiDBCDCService.isCriticalChange change <;>
      simp [TiDBCDCService.processChange, TiDBCDCService.sendChangeToKafka,
        TiDBCDCService.processCriticalChange, TiDBCDCService.mkChangeLogEntry, hcrit]
  · intro h
    have hlen := congrArg String.length h
    simp only [String.length_append] at hlen
    have h1 : ("_" : String).length = 1 := rfl
    have h9 : ("CRITICAL_" : String).length = 9 := rfl
    rw [h1, h9] at hlen
    omega

/-- C7: `assessLoginRisk` returns only LOW or MEDIUM; it returns LOW exactly
for the loopback literal `127.0.0.1`, and in particular `203.0.113.5` maps to
MEDIUM. -/
theorem C7_assessLoginRisk_boundary (loginData : KafkaConsumerService.LoginData) :
    (KafkaConsumerService.assessLoginRisk loginData = "LOW" ∨
      KafkaConsumerService.assessLoginRisk loginData = "MEDIUM") ∧
    (KafkaConsumerService.assessLoginRisk loginData = "LOW" ↔
      loginData.ipAddress = "127.0.0.1") ∧
    KafkaConsumerService.assessLoginRisk { ipAddress := "203.0.113.5" } = "MEDIUM" := by
  by_cases h : loginData.ipAddress = "127.0.0.1" <;>
    simp_all [KafkaConsumerService.assessLoginRisk]

/-- C8: the dispatcher never raises — a message whose value fails to parse
lands in the catch block (logged, skipped, not retried) with no handler
invoked, a message on an unrecognized topic is logged as a warning and skipped
with no handler invoked, and a handler runs only for a parseable message on
one of the three subscribed topics. -/
theorem C8_processMessage_skips_bad_messages (topic : String)
    (value : KafkaConsumerService.MessageValue) :
    KafkaConsumerService.processMessage topic
        KafkaConsumerService.MessageValue.invalidJson =
      KafkaConsumerService.ProcessOutcome.errorLogged ∧
    (topic ≠ "user-events" → topic ≠ "database-events" → topic ≠ "system-logs" →
      value ≠ KafkaConsumerService.MessageValue.invalidJson →
      KafkaConsumerService.processMessage topic value =
        KafkaConsumerService.ProcessOutcome.unknownTopicWarned) ∧
    (∀ handler, KafkaConsumerService.processMessage topic value =
        KafkaConsumerService.ProcessOutcome.handled handler →
      (topic = "user-events" ∨ topic = "database-events" ∨ topic = "system-logs") ∧
        value ≠ KafkaConsumerService.MessageValue.invalidJson) := by
  refine ⟨rfl, ?_, ?_⟩
  · intro h1 h2 h3 hv
    cases value with
    | invalidJson => exact absurd rfl hv
    | absent => simp [KafkaConsumerService.processMessage, h1, h2, h3]
    | valid => simp [KafkaConsumerService.processMessage, h1, h2, h3]
  · intro handler heq
    by_cases h1 : topic = "user-events" <;>
    by_cases h2 : topic = "database-events" <;>
    by_cases h3 : topic = "system-logs" <;>
      cases value <;> simp_all [KafkaConsumerService.processMessage]

/-- C9: `classifyChange` is total — it returns one of the three category
strings for every input, mapping table `users` to `USER_DATA_CHANGE`,
`user_tokens` to `AUTH_TOKEN_CHANGE`, and every other table to
`GENERAL_DATA_CHANGE`, never an error. -/
theorem C9_classifyChange_total (eventData : KafkaConsumerService.DatabaseEventData) :
    (KafkaConsumerService.classifyChange eventData = "USER_DATA_CHANGE" ∨
      KafkaConsumerService.classifyChange eventData = "AUTH_TOKEN_CHANGE" ∨
      KafkaConsumerService.classifyChange eventData = "GENERAL_DATA_CHANGE") ∧
    (eventData.table = "users" →
      KafkaConsumerService.classifyChange eventData = "USER_DATA_CHANGE") ∧
    (eventData.table = "user_tokens" →
      KafkaConsumerService.classifyChange eventData = "AUTH_TOKEN_CHANGE") ∧
    (eventData.table ≠ "users" → eventData.table ≠ "user_tokens" →
      KafkaConsumerService.classifyChange eventData = "GENERAL_DATA_CHANGE") := by
  by_cases h1 : eventData.table = "users" <;>
  by_cases h2 : eventData.table = "user_tokens" <;>
    simp_all [KafkaConsumerService.classifyChange]

/-- C10: for every change record the producer deems critical, the
security-implication tag is `USER_ACCOUNT_DELETED` or `USER_DATA_MODIFIED`;
the `UNKNOWN` tag is never emitted on the critical-escalation path. -/
theorem C10_critical_security_tag (change : ChangeRecord)
    (hcrit : TiDBCDCService.isCriticalChange change = true) :
    (TiDBCDCService.getSecurityImplications change = "USER_ACCOUNT_DELETED" ∨
      TiDBCDCService.getSecurityImplications change = "USER_DATA_MODIFIED") ∧
    TiDBCDCService.getSecurityImplications change ≠ "UNKNOWN" := by
  unfold TiDBCDCService.isCriticalChange at hcrit
  unfold TiDBCDCService.getSecurityImplications
  by_cases h1 : change.table_name = "users" <;>
  by_cases h2 : change.operation_type = "DELETE" <;>
  by_cases h3 : change.operation_type = "UPDATE" <;>
    simp_all

/-- C10, witness: the tag theorem applied to the concrete `users` DELETE
record, whose criticality is discharged by evaluation. -/
theorem C10_critical_security_tag_witness :
    (TiDBCDCService.getSecurityImplications criticalUserDelete = "USER_ACCOUNT_DELETED" ∨
      TiDBCDCService.getSecurityImplications criticalUserDelete = "USER_DATA_MODIFIED") ∧
    TiDBCDCService.getSecurityImplications criticalUserDelete ≠ "UNKNOWN" :=
  C10_critical_security_tag criticalUserDelete (by decide)

end SRE
